import Mathlib

/-!
Verification of the steamworks binding's call-result bridge and
panic-contained warning trampoline.

Embedded source files:
* src/utils.rs — the C warning trampoline `c_warning_callback`, the
  process-wide `WARNING_CALLBACK` slot and `set_warning_callback`.
* src/user_stats.rs — `request_global_achievement_percentages`,
  `get_num_achievements`, `get_achievement_names`.

The Pending Call Registry, Completion Dispatcher and Result Decoder Table
(`register_call_result` and the tick loop) are not part of the excerpt; they
are modelled from the specification, as marked on each such definition.
-/

namespace Steamworks

/-! ## Warning trampoline (src/utils.rs) -/

/-- Payload carried by a Rust panic, as far as `c_warning_callback` can
observe it through its two downcast attempts: a `&str`, an owned `String`,
or anything else. -/
inductive PanicPayload
  | strRef (s : String)
  | ownedString (s : String)
  | other
deriving DecidableEq

/-- Outcome of invoking a warning handler: returns normally or panics. -/
inductive HandlerResult
  | ok
  | panicked (p : PanicPayload)
deriving DecidableEq

/-- A warning handler, modelled by its observable behaviour on the
`(level, message)` pair it is given. -/
def Handler : Type := Int → String → HandlerResult

/-- Observable outcome of one invocation of `c_warning_callback`. -/
structure TrampolineOutcome where
  /-- `some d` when the trampoline itself panicked (unwound to its caller)
  with diagnostic `d`; `none` when it ran to completion (return or abort). -/
  panickedMsg : Option String
  /-- Whether `CStr::from_ptr(msg)` was executed, i.e. the raw message
  pointer was read. -/
  msgRead : Bool
  /-- The `(level, message)` arguments the handler was applied to, when it
  was invoked at all. -/
  invokedWith : Option (Int × String)
  /-- The `println!` diagnostic lines emitted, in order. -/
  logs : List String
  /-- Whether `process::abort()` was reached; nothing runs after it. -/
  aborted : Bool
deriving DecidableEq

/-- The diagnostic line `c_warning_callback` prints for a caught panic,
following its downcast chain (src/utils.rs lines 34-40). -/
def panicLogLine : PanicPayload → String
  | .strRef e => "Steam warning callback panicked: " ++ e
  | .ownedString e => "Steam warning callback panicked: " ++ e
  | .other => "Steam warning callback panicked"

/-- Shallow embedding of `c_warning_callback` (src/utils.rs lines 21-43).
`poisoned` models the `RwLock` read guard reporting poison (the `expect`
then panics); `slot` is the current `WARNING_CALLBACK` contents. With no
handler it returns before reading `msg`; with a handler it converts the
message, invokes the handler inside `catch_unwind`, and on a caught panic
prints one diagnostic line and aborts the process. -/
def c_warning_callback (poisoned : Bool) (slot : Option Handler)
    (level : Int) (msg : String) : TrampolineOutcome :=
  if poisoned then
    { panickedMsg := some "warning func lock poisoned", msgRead := false,
      invokedWith := none, logs := [], aborted := false }
  else
    match slot with
    | none =>
      { panickedMsg := none, msgRead := false, invokedWith := none,
        logs := [], aborted := false }
    | some cb =>
      match cb level msg with
      | .ok =>
        { panickedMsg := none, msgRead := true,
          invokedWith := some (level, msg), logs := [], aborted := false }
      | .panicked p =>
        { panickedMsg := none, msgRead := true,
          invokedWith := some (level, msg), logs := [panicLogLine p],
          aborted := true }

/-- Observable outcome of one call to `set_warning_callback`. -/
structure SetOutcome where
  /-- `some d` when the call panicked with diagnostic `d` (poisoned lock). -/
  panickedMsg : Option String
  /-- The slot contents after the call. -/
  newSlot : Option Handler
  /-- Whether `SteamAPI_ISteamUtils_SetWarningMessageHook` was reached. -/
  hookInstalled : Bool

/-- Shallow embedding of `set_warning_callback` (src/utils.rs lines 84-95):
acquire the write lock (panicking on poison), overwrite the slot with
`Some(Box::new(cb))`, then install the native hook. -/
def set_warning_callback (poisoned : Bool) (slot : Option Handler)
    (cb : Handler) : SetOutcome :=
  if poisoned then
    { panickedMsg := some "warning func lock poisoned", newSlot := slot,
      hookInstalled := false }
  else
    { panickedMsg := none, newSlot := some cb, hookInstalled := true }

/-- The initial contents of the `WARNING_CALLBACK` slot
(src/utils.rs lines 15-18: `RwLock::new(None)`). -/
def warningCallbackInit : Option Handler := none

/-- The write `set_warning_callback` performs on the slot
(src/utils.rs line 91: `*lock = Some(Box::new(cb))`). -/
def setSlot (_s : Option Handler) (f : Handler) : Option Handler := some f

/-- The slot contents after a linearized sequence of `set_warning_callback`
writes (the `RwLock` write guard makes each replacement atomic, so any
concurrent execution of set calls is one such sequence). -/
def runSets (init : Option Handler) (fs : List Handler) : Option Handler :=
  fs.foldl setSlot init

theorem runSets_append_last (init : Option Handler) (fs : List Handler)
    (f : Handler) : runSets init (fs ++ [f]) = some f := by
  simp [runSets, List.foldl_append, setSlot]

theorem runSets_cons_mem (fs : List Handler) :
    ∀ (init : Option Handler) (f : Handler),
      ∃ g ∈ f :: fs, runSets init (f :: fs) = some g := by
  induction fs with
  | nil => intro init f; exact ⟨f, by simp, rfl⟩
  | cons f' fs ih =>
    intro init f
    obtain ⟨g, hg, hrun⟩ := ih (some f) f'
    exact ⟨g, List.mem_cons_of_mem f hg, hrun⟩

/-- C1: a handler invocation that panics is caught at the trampoline
boundary: exactly one diagnostic line is printed, the process then aborts,
and the panic never unwinds out of `c_warning_callback` into the foreign
caller's frame. -/
theorem c_warning_callback_panic_contained (cb : Handler) (level : Int)
    (msg : String) (p : PanicPayload) (hp : cb level msg = .panicked p) :
    (c_warning_callback false (some cb) level msg).logs = [panicLogLine p]
    ∧ (c_warning_callback false (some cb) level msg).logs.length = 1
    ∧ (c_warning_callback false (some cb) level msg).aborted = true
    ∧ (c_warning_callback false (some cb) level msg).panickedMsg = none := by
  simp [c_warning_callback, hp]

/-- Witness for C1 at a concrete always-panicking handler. -/
theorem c_warning_callback_panic_contained_witness :
    (c_warning_callback false (some fun _ _ => .panicked (.strRef "boom"))
        1 "low disk space").logs = [panicLogLine (.strRef "boom")]
    ∧ (c_warning_callback false (some fun _ _ => .panicked (.strRef "boom"))
        1 "low disk space").logs.length = 1
    ∧ (c_warning_callback false (some fun _ _ => .panicked (.strRef "boom"))
        1 "low disk space").aborted = true
    ∧ (c_warning_callback false (some fun _ _ => .panicked (.strRef "boom"))
        1 "low disk space").panickedMsg = none :=
  c_warning_callback_panic_contained (fun _ _ => .panicked (.strRef "boom"))
    1 "low disk space" (.strRef "boom") rfl

/-- C4: with no handler installed the trampoline does nothing and returns
normally: no handler invoked, no diagnostic, no abort. -/
theorem c_warning_callback_no_handler_noop (level : Int) (msg : String) :
    c_warning_callback false none level msg =
      { panickedMsg := none, msgRead := false, invokedWith := none,
        logs := [], aborted := false } := by
  simp [c_warning_callback]

/-- C6: with a handler installed, the trampoline invokes it with exactly
the severity level and message delivered by the foreign runtime, e.g.
`(1, "low disk space")` is observed as exactly `(1, "low disk space")`. -/
theorem c_warning_callback_forwards_args (cb : Handler) (level : Int)
    (msg : String) :
    (c_warning_callback false (some cb) level msg).invokedWith
        = some (level, msg)
    ∧ (c_warning_callback false (some cb) 1 "low disk space").invokedWith
        = some (1, "low disk space") := by
  constructor
  · cases h : cb level msg with
    | ok => simp [c_warning_callback, h]
    | panicked p => simp [c_warning_callback, h]
  · cases h : cb 1 "low disk space" with
    | ok => simp [c_warning_callback, h]
    | panicked p => simp [c_warning_callback, h]

/-- C7: both accesses to the warning-hook slot treat a poisoned lock as a
fatal internal error: the trampoline's read and `set_warning_callback`'s
write each panic with the diagnostic "warning func lock poisoned" and do
not proceed (no handler invoked, slot unchanged, hook not installed). -/
theorem poisoned_lock_is_fatal (slot : Option Handler) (level : Int)
    (msg : String) (cb : Handler) :
    (c_warning_callback true slot level msg).panickedMsg
        = some "warning func lock poisoned"
    ∧ (c_warning_callback true slot level msg).invokedWith = none
    ∧ (c_warning_callback true slot level msg).logs = []
    ∧ (set_warning_callback true slot cb).panickedMsg
        = some "warning func lock poisoned"
    ∧ (set_warning_callback true slot cb).newSlot = slot
    ∧ (set_warning_callback true slot cb).hookInstalled = false := by
  simp [c_warning_callback, set_warning_callback]

/-- C9: while the slot is empty, the trampoline returns without ever
reading the raw message pointer: `CStr::from_ptr` runs only after an
installed handler has been found. -/
theorem c_warning_callback_msg_unread_when_empty (level : Int)
    (msg : String) :
    (c_warning_callback false none level msg).msgRead = false
    ∧ (c_warning_callback false none level msg).panickedMsg = none
    ∧ (c_warning_callback false none level msg).aborted = false
    ∧ ∀ p : Bool, (c_warning_callback p none level msg).msgRead = false := by
  refine ⟨by simp [c_warning_callback], by simp [c_warning_callback],
    by simp [c_warning_callback], ?_⟩
  intro p
  cases p <;> simp [c_warning_callback]

/-- C5: the warning slot starts empty, each `set_warning_callback` write
fully replaces the previous contents, after any write sequence ending in
`set f` a read observes exactly `some f`, and after any nonempty sequence
of completed writes a read observes one whole installed handler — never
empty, never a mixture of two. -/
theorem warning_slot_replacement :
    warningCallbackInit = none
    ∧ (∀ (s : Option Handler) (f : Handler), setSlot s f = some f)
    ∧ (∀ (fs : List Handler) (f : Handler),
        runSets warningCallbackInit (fs ++ [f]) = some f)
    ∧ (∀ (fs : List Handler) (f : Handler),
        ∃ g ∈ f :: fs, runSets warningCallbackInit (f :: fs) = some g) :=
  ⟨rfl, fun _ _ => rfl, fun fs f => runSets_append_last _ fs f,
    fun fs f => runSets_cons_mem fs warningCallbackInit f⟩

/-! ## Pending-call bridge (src/user_stats.rs; registry, dispatcher and
decoder table modelled from the spec, `register_call_result` and the tick
loop not being part of the excerpt) -/

/-- The bridge's error type; only the I/O-failure variant is used by this
subsystem. -/
inductive SteamError
  | ioFailure
deriving DecidableEq

/-- A game identifier, wrapping the foreign runtime's `u64`. -/
structure GameId where
  val : Nat
deriving DecidableEq

/-- The payload struct `GlobalAchievementPercentagesReady_t`; the source
reads only its `m_nGameID` field (a `u64`). -/
structure GlobalAchievementPercentagesReady where
  m_nGameID : Nat
deriving DecidableEq

/-- Modelled from the spec: a Result Decoder Table entry for one result
kind — the exact expected payload byte length and the pure decode function
from raw bytes to the typed value (spec 4.1). The table itself is a partial
map from kind to entry. -/
structure Decoder (V : Type) where
  expectedSize : Nat
  decode : List Nat → V

/-- Modelled from the spec: a PendingCall owns a result kind and a
type-erased single-invocation callback taking the decoded result or the
I/O-failure marker (spec's DecodedResult: `.ok v` or `.error ()`, never
both). -/
structure PendingCall (V O : Type) where
  kind : Int
  callback : Except Unit V → O

/-- Modelled from the spec: the Pending Call Registry, a mapping from call
handle to pending entry (spec 4.2). -/
def Registry (V O : Type) : Type := List (Nat × PendingCall V O)

/-- Modelled from the spec: `register(handle, kind, callback)` inserts a
new pending entry; a duplicate registration for an already-present handle
is rejected rather than overwriting the first (spec 4.2). -/
def registerCall {V O : Type} (r : Registry V O) (h : Nat) (kind : Int)
    (cb : Except Unit V → O) : Registry V O :=
  match r.lookup h with
  | some _ => r
  | none => (h, ⟨kind, cb⟩) :: r

/-- Modelled from the spec: `take(handle)` atomically removes and returns
the entry if present (spec 4.2). -/
def takeCall {V O : Type} (r : Registry V O) (h : Nat) :
    Option (PendingCall V O) × Registry V O :=
  (r.lookup h, r.filter fun e => e.1 != h)

/-- What the foreign runtime reports for one handle on one dispatch tick:
readiness, the I/O-failure flag, and the raw payload bytes. -/
structure TickReport where
  ready : Bool
  ioError : Bool
  payload : List Nat
deriving DecidableEq

/-- Instrumented outcome of one dispatcher step for one handle. -/
structure DispatchEvent (O : Type) where
  /-- Whether the kind's decode function was invoked on the payload. -/
  decodeInvoked : Bool
  /-- Whether an unrecoverable internal-consistency fault was hit (payload
  length mismatch or missing decoder for the registered kind). -/
  fatalMismatch : Bool
  /-- The callback's output, when the callback was invoked. -/
  callbackOutput : Option O

/-- Modelled from the spec: one Completion Dispatcher step for handle `h`
(spec 4.3): if not ready, do nothing; if ready, `take` the entry (dropping
the result silently when absent), short-circuit to a failure outcome on the
I/O-failure flag without decoding, and otherwise look up the kind's
decoder, validate the payload length, decode and deliver success; a
mismatch is an unrecoverable fault with no callback invocation. -/
def dispatchOn {V O : Type} (dec : Int → Option (Decoder V))
    (r : Registry V O) (h : Nat) (t : TickReport) :
    DispatchEvent O × Registry V O :=
  if t.ready then
    match takeCall r h with
    | (none, r') => (⟨false, false, none⟩, r')
    | (some pc, r') =>
      if t.ioError then
        (⟨false, false, some (pc.callback (.error ()))⟩, r')
      else
        match dec pc.kind with
        | none => (⟨false, true, none⟩, r')
        | some d =>
          if t.payload.length = d.expectedSize then
            (⟨true, false, some (pc.callback (.ok (d.decode t.payload)))⟩, r')
          else
            (⟨false, true, none⟩, r')
  else (⟨false, false, none⟩, r)

/-- Modelled from the spec: a sequence of dispatch ticks for handle `h`,
collecting the callback outputs in order and the final registry; a fatal
mismatch terminates the process, so no further tick runs after it. -/
def runTicks {V O : Type} (dec : Int → Option (Decoder V)) (h : Nat) :
    Registry V O → List TickReport → List O × Registry V O
  | r, [] => ([], r)
  | r, t :: ts =>
    if (dispatchOn dec r h t).1.fatalMismatch then
      ((dispatchOn dec r h t).1.callbackOutput.toList, (dispatchOn dec r h t).2)
    else
      ((dispatchOn dec r h t).1.callbackOutput.toList
          ++ (runTicks dec h (dispatchOn dec r h t).2 ts).1,
        (runTicks dec h (dispatchOn dec r h t).2 ts).2)

/-- The base offset added to per-struct callback numbers
(src/user_stats.rs line 13). -/
def CALLBACK_BASE_ID : Int := 1100

/-- Shallow embedding of `request_global_achievement_percentages`
(src/user_stats.rs lines 32-55): registers the issued call handle with kind
`CALLBACK_BASE_ID + 10` and the wrapper closure
`|v, io_error| cb(if io_error { Err(SteamError::IOFailure) } else
{ Ok(GameId(v.m_nGameID)) })`, here adapted to the spec-modelled
DecodedResult interface (the failure marker carries no payload, matching
the branch in which `v` is never read). -/
def request_global_achievement_percentages {O : Type}
    (r : Registry GlobalAchievementPercentagesReady O) (api_call : Nat)
    (cb : Except SteamError GameId → O) :
    Registry GlobalAchievementPercentagesReady O :=
  registerCall r api_call (CALLBACK_BASE_ID + 10) fun res =>
    match res with
    | .error _ => cb (.error .ioFailure)
    | .ok v => cb (.ok ⟨v.m_nGameID⟩)

theorem takeCall_single {V O : Type} (h : Nat) (pc : PendingCall V O) :
    takeCall [(h, pc)] h = (some pc, []) := by
  simp [takeCall, List.lookup]

theorem dispatchOn_empty {V O : Type} (dec : Int → Option (Decoder V))
    (h : Nat) (t : TickReport) :
    dispatchOn dec ([] : Registry V O) h t = (⟨false, false, none⟩, []) := by
  cases hr : t.ready <;> simp [dispatchOn, takeCall, List.lookup, hr]

theorem runTicks_empty {V O : Type} (dec : Int → Option (Decoder V))
    (h : Nat) (ticks : List TickReport) :
    runTicks dec h ([] : Registry V O) ticks = ([], []) := by
  induction ticks with
  | nil => rfl
  | cons t ts ih => simp [runTicks, dispatchOn_empty, ih]

theorem runTicks_single {V O : Type} (dec : Int → Option (Decoder V))
    (h : Nat) (pc : PendingCall V O) (d : Decoder V)
    (hdec : dec pc.kind = some d) (ticks : List TickReport)
    (hsize : ∀ t ∈ ticks, t.payload.length = d.expectedSize) :
    ((runTicks dec h [(h, pc)] ticks).1.length ≤ 1)
    ∧ ((∃ t ∈ ticks, t.ready = true) →
        (runTicks dec h [(h, pc)] ticks).1.length = 1
        ∧ (runTicks dec h [(h, pc)] ticks).2 = []) := by
  induction ticks with
  | nil => exact ⟨by simp [runTicks], by simp⟩
  | cons t ts ih =>
    have hsize' : ∀ u ∈ ts, u.payload.length = d.expectedSize :=
      fun u hu => hsize u (List.mem_cons_of_mem t hu)
    cases hr : t.ready with
    | false =>
      have hstep : dispatchOn dec [(h, pc)] h t = (⟨false, false, none⟩, [(h, pc)]) := by
        simp [dispatchOn, hr]
      obtain ⟨ih1, ih2⟩ := ih hsize'
      refine ⟨?_, ?_⟩
      · simpa [runTicks, hstep] using ih1
      · intro hex
        have hex' : ∃ u ∈ ts, u.ready = true := by
          rcases hex with ⟨u, hu, hru⟩
          rcases List.mem_cons.mp hu with hut | hut
          · rw [hut] at hru; rw [hru] at hr; cases hr
          · exact ⟨u, hut, hru⟩
        obtain ⟨h1, h2⟩ := ih2 hex'
        constructor
        · simpa [runTicks, hstep] using h1
        · simpa [runTicks, hstep] using h2
    | true =>
      have hout : ∃ o : O,
          dispatchOn dec [(h, pc)] h t = (⟨!t.ioError, false, some o⟩, []) := by
        cases hio : t.ioError with
        | true =>
          exact ⟨pc.callback (.error ()),
            by simp [dispatchOn, hr, hio, takeCall_single]⟩
        | false =>
          have hlen : t.payload.length = d.expectedSize :=
            hsize t (List.mem_cons_self t ts)
          exact ⟨pc.callback (.ok (d.decode t.payload)),
            by simp [dispatchOn, hr, hio, takeCall_single, hdec, hlen]⟩
      obtain ⟨o, hstep⟩ := hout
      have hrun : runTicks dec h [(h, pc)] (t :: ts) = ([o], []) := by
        simp [runTicks, hstep, runTicks_empty]
      exact ⟨by simp [hrun], fun _ => by simp [hrun]⟩

/-- C2: a handle registered exactly once has its callback invoked at most
once across any sequence of dispatch ticks, and exactly once as soon as
some tick reports it ready, the entry being removed at dispatch so a later
ready observation has no effect (the foreign runtime is assumed to deliver
payloads of the kind's expected size). -/
theorem pending_call_fires_exactly_once {V O : Type} (kind : Int)
    (cb : Except Unit V → O) (d : Decoder V)
    (dec : Int → Option (Decoder V)) (hdec : dec kind = some d) (h : Nat)
    (ticks : List TickReport)
    (hsize : ∀ t ∈ ticks, t.payload.length = d.expectedSize) :
    ((runTicks dec h (registerCall [] h kind cb) ticks).1.length ≤ 1)
    ∧ ((∃ t ∈ ticks, t.ready = true) →
        (runTicks dec h (registerCall [] h kind cb) ticks).1.length = 1
        ∧ (runTicks dec h (registerCall [] h kind cb) ticks).2 = []) := by
  have hreg : registerCall ([] : Registry V O) h kind cb = [(h, ⟨kind, cb⟩)] := rfl
  rw [hreg]
  exact runTicks_single dec h ⟨kind, cb⟩ d hdec ticks hsize

/-- Witness for C2: handle 42, one ready tick, callback fires once and the
entry is gone. -/
theorem pending_call_fires_exactly_once_witness :
    ((runTicks (fun k => if k = 7 then some ⟨1, fun bs => bs.sum⟩ else none)
        42
        (registerCall [] 42 7 fun e => match e with
          | .ok v => v
          | .error _ => 0)
        [⟨true, false, [5]⟩]).1.length = 1)
    ∧ ((runTicks (fun k => if k = 7 then some ⟨1, fun bs => bs.sum⟩ else none)
        42
        (registerCall [] 42 7 fun e => match e with
          | .ok v => v
          | .error _ => 0)
        [⟨true, false, [5]⟩]).2 = []) :=
  (pending_call_fires_exactly_once 7 _ ⟨1, fun bs => bs.sum⟩ _ rfl 42
      [⟨true, false, [5]⟩] (by intro t ht; simp at ht; simp [ht])).2
    ⟨⟨true, false, [5]⟩, by simp, rfl⟩

/-- C3: for a dispatch of a call registered through
`request_global_achievement_percentages`, the user callback receives
`Err(SteamError::IOFailure)` exactly when the tick's I/O-failure flag is
set — the payload then never being decoded — and otherwise receives
`Ok(GameId(v.m_nGameID))` for the value `v` decoded exactly from the raw
payload bytes. -/
theorem percentages_dispatch_outcome {O : Type}
    (cb : Except SteamError GameId → O)
    (d : Decoder GlobalAchievementPercentagesReady)
    (dec : Int → Option (Decoder GlobalAchievementPercentagesReady))
    (hdec : dec (CALLBACK_BASE_ID + 10) = some d) (h : Nat)
    (t : TickReport) (hready : t.ready = true) :
    (t.ioError = true →
      (dispatchOn dec (request_global_achievement_percentages [] h cb) h
          t).1.callbackOutput = some (cb (.error .ioFailure))
      ∧ (dispatchOn dec (request_global_achievement_percentages [] h cb) h
          t).1.decodeInvoked = false)
    ∧ (t.ioError = false → t.payload.length = d.expectedSize →
      (dispatchOn dec (request_global_achievement_percentages [] h cb) h
          t).1.callbackOutput
          = some (cb (.ok ⟨(d.decode t.payload).m_nGameID⟩))
      ∧ (dispatchOn dec (request_global_achievement_percentages [] h cb) h
          t).1.decodeInvoked = true) := by
  have hreg : request_global_achievement_percentages
      ([] : Registry GlobalAchievementPercentagesReady O) h cb
      = [(h, ⟨CALLBACK_BASE_ID + 10, fun res =>
          match res with
          | .error _ => cb (.error .ioFailure)
          | .ok v => cb (.ok ⟨v.m_nGameID⟩)⟩)] := rfl
  constructor
  · intro hio
    rw [hreg]
    simp [dispatchOn, hready, hio, takeCall_single]
  · intro hio hlen
    rw [hreg]
    simp [dispatchOn, hready, hio, takeCall_single, hdec, hlen]

/-- Witness for C3 at handle 42, with both an I/O-failure tick and a
success tick whose payload decodes to game-id 123456. -/
theorem percentages_dispatch_outcome_witness :
    ((dispatchOn
        (fun k => if k = CALLBACK_BASE_ID + 10 then
          some ⟨1, fun bs => ⟨bs.sum⟩⟩ else none)
        (request_global_achievement_percentages [] 42 fun x => x) 42
        ⟨true, true, []⟩).1.callbackOutput = some (.error .ioFailure)
      ∧ (dispatchOn
        (fun k => if k = CALLBACK_BASE_ID + 10 then
          some ⟨1, fun bs => ⟨bs.sum⟩⟩ else none)
        (request_global_achievement_percentages [] 42 fun x => x) 42
        ⟨true, true, []⟩).1.decodeInvoked = false)
    ∧ ((dispatchOn
        (fun k => if k = CALLBACK_BASE_ID + 10 then
          some ⟨1, fun bs => ⟨bs.sum⟩⟩ else none)
        (request_global_achievement_percentages [] 42 fun x => x) 42
        ⟨true, false, [123456]⟩).1.callbackOutput = some (.ok ⟨123456⟩)
      ∧ (dispatchOn
        (fun k => if k = CALLBACK_BASE_ID + 10 then
          some ⟨1, fun bs => ⟨bs.sum⟩⟩ else none)
        (request_global_achievement_percentages [] 42 fun x => x) 42
        ⟨true, false, [123456]⟩).1.decodeInvoked = true) :=
  ⟨(percentages_dispatch_outcome (fun x => x) ⟨1, fun bs => ⟨bs.sum⟩⟩ _
      (by simp) 42 ⟨true, true, []⟩ rfl).1 rfl,
    (percentages_dispatch_outcome (fun x => x) ⟨1, fun bs => ⟨bs.sum⟩⟩ _
      (by simp) 42 ⟨true, false, [123456]⟩ rfl).2 rfl rfl⟩

/-- C8 counterexample: the pending call of
`request_global_achievement_percentages` is registered under result-kind
identifier 1110 (`CALLBACK_BASE_ID + 10`), not under 10. -/
theorem percentages_kind_not_ten :
    ((request_global_achievement_percentages
        ([] : Registry GlobalAchievementPercentagesReady
          (Except SteamError GameId)) 42 fun x => x).lookup 42).map
        PendingCall.kind = some 1110
    ∧ ((request_global_achievement_percentages
        ([] : Registry GlobalAchievementPercentagesReady
          (Except SteamError GameId)) 42 fun x => x).lookup 42).map
        PendingCall.kind ≠ some 10 := by
  constructor
  · rfl
  · intro hcontra
    have h1110 : ((request_global_achievement_percentages
        ([] : Registry GlobalAchievementPercentagesReady
          (Except SteamError GameId)) 42 fun x => x).lookup 42).map
        PendingCall.kind = some 1110 := rfl
    rw [h1110] at hcontra
    simp at hcontra

/-- C8 (amended): `request_global_achievement_percentages` registers its
pending call under result-kind identifier `CALLBACK_BASE_ID + 10 = 1110`,
where `CALLBACK_BASE_ID = 1100` (the struct's own number in the foreign
header is 10). -/
theorem percentages_registered_kind {O : Type} (h : Nat)
    (cb : Except SteamError GameId → O) :
    ((request_global_achievement_percentages [] h cb).lookup h).map
        PendingCall.kind = some (CALLBACK_BASE_ID + 10)
    ∧ CALLBACK_BASE_ID + 10 = (1110 : Int) := by
  constructor
  · simp [request_global_achievement_percentages, registerCall, List.lookup]
  · rfl

/-! ## Achievement count and names (src/user_stats.rs) -/

/-- Shallow embedding of `get_num_achievements`
(src/user_stats.rs lines 206-217): `num` is the count the foreign runtime
reports; the function returns `Ok(num)` when it is nonzero and `Err(())`
when it is zero. -/
def get_num_achievements (num : Nat) : Except Unit Nat :=
  if num ≠ 0 then .ok num else .error ()

/-- Shallow embedding of `get_achievement_names`
(src/user_stats.rs lines 223-240): `nameAt i` is the name the foreign
runtime reports for index `i`; the `expect` panic is modelled as `.error`
carrying the panic message. On success the names at indices `0..num` are
collected in order and wrapped in `Some`. -/
def get_achievement_names (num : Nat) (nameAt : Nat → String) :
    Except String (Option (List String)) :=
  match get_num_achievements num with
  | .error _ => .error "Failed to get number of achievements"
  | .ok n => .ok (some ((List.range n).map nameAt))

/-- C10: `get_num_achievements` returns `Err(())` exactly when the foreign
runtime reports a count of 0; consequently `get_achievement_names` panics
with "Failed to get number of achievements" for an app with zero
achievements instead of returning `Some` of an empty list, and for a
nonzero count it returns `Some` of a vector with exactly that many
names. -/
theorem achievement_names_zero_count (num : Nat) (nameAt : Nat → String) :
    (get_num_achievements num = .error () ↔ num = 0)
    ∧ (num = 0 →
        get_achievement_names num nameAt
          = .error "Failed to get number of achievements")
    ∧ (num ≠ 0 → ∃ names : List String,
        get_achievement_names num nameAt = .ok (some names)
        ∧ names.length = num) := by
  refine ⟨?_, ?_, ?_⟩
  · constructor
    · intro he
      by_contra hne
      simp [get_num_achievements, hne] at he
    · intro hz
      simp [get_num_achievements, hz]
  · intro hz
    simp [get_achievement_names, get_num_achievements, hz]
  · intro hne
    refine ⟨(List.range num).map nameAt, ?_, by simp⟩
    simp [get_achievement_names, get_num_achievements, hne]

/-- Witness for C10 at counts 0 and 3. -/
theorem achievement_names_zero_count_witness :
    (get_achievement_names 0 (fun _ => "x")
        = .error "Failed to get number of achievements")
    ∧ (∃ names : List String,
        get_achievement_names 3 (fun _ => "x") = .ok (some names)
        ∧ names.length = 3) :=
  ⟨(achievement_names_zero_count 0 fun _ => "x").2.1 rfl,
    (achievement_names_zero_count 3 fun _ => "x").2.2 (by decide)⟩

end Steamworks
